import Mathlib

/-!
Shallow embedding of `src/distance_and_force.ino` (Artificial-Muscle firmware).

The firmware is a single-threaded Arduino loop: a recursive scalar filter
(`SimpleKalmanFilter`), two 20-slot sliding-window averagers (inline in
`processForceSensor` / `processDistanceSensor`), a 3-state byte-stream frame
decoder (`processDistanceSensor`'s static state machine), and a ticked output
routine (`sendAllData`).

Modelling choices:
* C `float` arithmetic is embedded as `ℚ` (exact field arithmetic).
* Serial bytes are `Fin 256`.
* The Arduino `long` in the big-endian decode is a signed 32-bit integer;
  `toSigned32` gives the two's-complement reading of the assembled 32 bits.
* External collaborators (`analogRead`, `irSensorSerial`, `millis`) are inputs
  of each loop iteration: an optional serial byte, the raw force sample, the
  raw pressure sample, and a flag saying whether the 100 ms send interval has
  elapsed on this iteration.
* The decoder's `static` locals become an explicit `Decoder` record; the file
  globals become the `SysState` record.  Two ghost write counters
  (`forceWrites`, `distanceWrites`) are added as pure observers: they count
  how many history-array writes each channel has performed and influence
  nothing.
* Emitted serial lines are collected in `SysState.output`.  The decimal
  rendering done by the external `Serial.print(value, digits)` is modelled
  from the spec by `formatFixed`.
-/

/-- A serial byte. -/
abbrev Byte := Fin 256

/-- State of `class SimpleKalmanFilter`: fields `Q, R, P, K, x` (floats,
embedded as `ℚ`). -/
structure SimpleKalmanFilter where
  Q : ℚ
  R : ℚ
  P : ℚ
  K : ℚ
  x : ℚ
deriving DecidableEq

/-- Method `SimpleKalmanFilter::update`:
`P += Q; K = P / (P + R); x += K * (z - x); P = (1 - K) * P; return x;`.
Returns the new filter state together with the returned estimate. -/
def SimpleKalmanFilter.update (f : SimpleKalmanFilter) (z : ℚ) :
    SimpleKalmanFilter × ℚ :=
  let p1 := f.P + f.Q
  let k1 := p1 / (p1 + f.R)
  let x1 := f.x + k1 * (z - f.x)
  let p2 := (1 - k1) * p1
  ({ f with P := p2, K := k1, x := x1 }, x1)

/-- Constant `const int HISTORY_SIZE = 20;`. -/
def HISTORY_SIZE : ℕ := 20

/-- Function `mapFloat(x, in_min, in_max, out_min, out_max)`. -/
def mapFloat (x in_min in_max out_min out_max : ℚ) : ℚ :=
  (x - in_min) * (out_max - out_min) / (in_max - in_min) + out_min

/-- The history-array write pattern shared by `processForceSensor` and the
valid-frame branch of `processDistanceSensor`:
store `v` at the current index, recompute the stabilized value as the sum of
the whole backing buffer divided by `HISTORY_SIZE`, then advance the index
modulo `HISTORY_SIZE`.  Returns (new buffer, stabilized value, new index). -/
def windowPush (hist : List ℚ) (idx : ℕ) (v : ℚ) : List ℚ × ℚ × ℕ :=
  let h := hist.set idx v
  (h, h.sum / (HISTORY_SIZE : ℚ), (idx + 1) % HISTORY_SIZE)

/-- Iterates `windowPush` over a list of pushed values, keeping buffer and
index. -/
def windowPushAll : List ℚ → ℕ → List ℚ → List ℚ × ℕ
  | hist, idx, [] => (hist, idx)
  | hist, idx, v :: vs =>
      windowPushAll (windowPush hist idx v).1 (windowPush hist idx v).2.2 vs

/-- The anonymous `enum { WAITING_FOR_AC, WAITING_FOR_CA, READING_PAYLOAD }`
inside `processDistanceSensor`. -/
inductive DecoderState where
  | WAITING_FOR_AC
  | WAITING_FOR_CA
  | READING_PAYLOAD
deriving DecidableEq

/-- The decoder's `static` locals: `state`, `payloadBuffer[8]`,
`bufferIndex`. -/
structure Decoder where
  state : DecoderState
  payloadBuffer : List Byte
  bufferIndex : ℕ
deriving DecidableEq

/-- Two's-complement reading of an assembled 32-bit pattern, as the Arduino
(signed, 32-bit) `long` used for `raw_dist`. -/
def toSigned32 (n : ℕ) : ℤ :=
  if n < 2 ^ 31 then (n : ℤ) else (n : ℤ) - 2 ^ 32

/-- The 32-bit big-endian pattern
`((long)payloadBuffer[1] << 24) | ((long)payloadBuffer[2] << 16) |
((long)payloadBuffer[3] << 8) | (long)payloadBuffer[4]` (the shifted fields
do not overlap, so the bitwise ors are addition). -/
def bigEndianPayload (buf : List Byte) : ℕ :=
  (buf.getD 1 0).val * 2 ^ 24 + (buf.getD 2 0).val * 2 ^ 16 +
    (buf.getD 3 0).val * 2 ^ 8 + (buf.getD 4 0).val

/-- One step of the `switch (state)` state machine in
`processDistanceSensor`, fed one serial byte.  Returns the new decoder state
and, when the 8th payload byte completes a frame that passes
`payloadBuffer[5] != 0x00 && payloadBuffer[6] == 0xDC &&
payloadBuffer[7] == 0xCD`, the delivered measurement
`(float)raw_dist / 100.0f`. -/
def Decoder.feed (d : Decoder) (b : Byte) : Decoder × Option ℚ :=
  match d.state with
  | DecoderState.WAITING_FOR_AC =>
      (if b = 0xAC then { d with state := DecoderState.WAITING_FOR_CA } else d,
        none)
  | DecoderState.WAITING_FOR_CA =>
      ({ d with
          state := if b = 0xCA then DecoderState.READING_PAYLOAD
                   else DecoderState.WAITING_FOR_AC
          bufferIndex := 0 }, none)
  | DecoderState.READING_PAYLOAD =>
      let buf := d.payloadBuffer.set d.bufferIndex b
      let idx := d.bufferIndex + 1
      if 8 ≤ idx then
        let delivered :=
          if buf.getD 5 0 ≠ 0 ∧ buf.getD 6 0 = 0xDC ∧ buf.getD 7 0 = 0xCD then
            some ((toSigned32 (bigEndianPayload buf) : ℚ) / 100)
          else none
        ({ d with
            state := DecoderState.WAITING_FOR_AC
            payloadBuffer := buf
            bufferIndex := idx }, delivered)
      else
        ({ d with payloadBuffer := buf, bufferIndex := idx }, none)

/-- Feed a whole byte list to the decoder, collecting every delivered
measurement in order. -/
def Decoder.feedAll (d : Decoder) (bs : List Byte) : Decoder × List ℚ :=
  bs.foldl (fun p b => let r := p.1.feed b; (r.1, p.2 ++ r.2.toList)) (d, [])

/-- The decoder's initial state: `state = WAITING_FOR_AC`, zero-initialised
static `payloadBuffer`, `bufferIndex = 0`. -/
def initDecoder : Decoder :=
  ⟨DecoderState.WAITING_FOR_AC, List.replicate 8 0, 0⟩

/-- The firmware's global mutable state, plus the decoder's statics, the
collected serial output, and two ghost write counters. -/
structure SysState where
  distanceKalman : SimpleKalmanFilter
  forceKalman : SimpleKalmanFilter
  distanceHistory : List ℚ
  forceHistory : List ℚ
  distanceHistoryIndex : ℕ
  forceHistoryIndex : ℕ
  bufferIsFull : Bool
  stable_distance_mm : ℚ
  stable_force_N : ℚ
  decoder : Decoder
  output : List String
  forceWrites : ℕ
  distanceWrites : ℕ

/-- Modelled from the spec: the fixed-point decimal rendering performed by the
external `Serial.print(value, digits)` collaborator (not part of this
repository's source).  The value is rounded to `digits` places (half away from
zero), written as sign, integer part, `.`, and exactly `digits` fractional
digits. -/
def formatFixed (q : ℚ) (digits : ℕ) : String :=
  let m : ℤ := ⌊|q| * (10 : ℚ) ^ digits + 1 / 2⌋
  let ip : ℤ := m / (10 : ℤ) ^ digits
  let fp : ℤ := m % (10 : ℤ) ^ digits
  let fpStr := toString fp
  (if q < 0 then "-" else "") ++ toString ip ++ "." ++
    String.mk (List.replicate (digits - fpStr.length) '0') ++ fpStr

/-- One output line of `sendAllData`: force and distance with 2 decimal
digits, pressure with 3, comma-separated, newline-terminated. -/
def formatLine (force dist pressure : ℚ) : String :=
  formatFixed force 2 ++ "," ++ formatFixed dist 2 ++ "," ++
    formatFixed pressure 3 ++ "\n"

/-- Function `processPressureSensor()`: rescale the raw pressure sample from 0–1023 to
0.0–1.0 (no filtering). -/
def processPressureSensor (pressureRaw : ℚ) : ℚ :=
  mapFloat pressureRaw 0 1023 0 1

/-- Function `sendAllData()`: while `!bufferIsFull`, latch `bufferIsFull` when either
history index has reached `HISTORY_SIZE - 1` and emit nothing; once full,
sample pressure fresh and emit one formatted line. -/
def sendAllData (s : SysState) (pressureRaw : ℚ) : SysState :=
  if s.bufferIsFull = false then
    if HISTORY_SIZE - 1 ≤ s.distanceHistoryIndex ∨
        HISTORY_SIZE - 1 ≤ s.forceHistoryIndex then
      { s with bufferIsFull := true }
    else s
  else
    let current_pressure := processPressureSensor pressureRaw
    { s with output := s.output ++
        [formatLine s.stable_force_N s.stable_distance_mm current_pressure] }

/-- Function `processForceSensor()`: rescale the raw analog sample from 0–1023 to
0–200, run it through the force Kalman filter, store the filtered value in
`forceHistory`, recompute `stable_force_N` as the buffer mean, advance the
index modulo 20. -/
def processForceSensor (s : SysState) (forceRaw : ℚ) : SysState :=
  let rawForce := mapFloat forceRaw 0 1023 0 200
  let k := s.forceKalman.update rawForce
  let w := windowPush s.forceHistory s.forceHistoryIndex k.2
  { s with
      forceKalman := k.1
      forceHistory := w.1
      stable_force_N := w.2.1
      forceHistoryIndex := w.2.2
      forceWrites := s.forceWrites + 1 }

/-- Function `processDistanceSensor()`: if a serial byte is available, feed it to the
frame decoder; when (and only when) the decoder delivers a measurement, run it
through the distance Kalman filter, store the filtered value in
`distanceHistory`, recompute `stable_distance_mm` as the buffer mean, advance
the index modulo 20. -/
def processDistanceSensor (s : SysState) (b : Option Byte) : SysState :=
  match b with
  | none => s
  | some byte =>
      let r := s.decoder.feed byte
      match r.2 with
      | none => { s with decoder := r.1 }
      | some m =>
          let k := s.distanceKalman.update m
          let w := windowPush s.distanceHistory s.distanceHistoryIndex k.2
          { s with
              decoder := r.1
              distanceKalman := k.1
              distanceHistory := w.1
              stable_distance_mm := w.2.1
              distanceHistoryIndex := w.2.2
              distanceWrites := s.distanceWrites + 1 }

/-- The per-iteration inputs of `loop()` supplied by the external
collaborators: the (at most one) available serial byte, the raw force analog
sample, whether `millis() - lastSendTime >= SEND_INTERVAL` on this iteration,
and the raw pressure analog sample read if output happens. -/
structure LoopInput where
  serialByte : Option Byte
  forceRaw : ℚ
  tick : Bool
  pressureRaw : ℚ

/-- One iteration of `loop()`: `processDistanceSensor(); processForceSensor();`
then, when the send interval has elapsed, `sendAllData()`. -/
def loopStep (s : SysState) (inp : LoopInput) : SysState :=
  let s1 := processDistanceSensor s inp.serialByte
  let s2 := processForceSensor s1 inp.forceRaw
  if inp.tick then sendAllData s2 inp.pressureRaw else s2

/-- The global initial state: `distanceKalman(0.01, 0.1, 0.5)`,
`forceKalman(0.01, 0.1, 0.5)`, zero-initialised history arrays, indices 0,
`bufferIsFull = false`, `stable_distance_mm = -1.0`, `stable_force_N = 0.0`. -/
def initState : SysState where
  distanceKalman := ⟨1/100, 1/10, 1/2, 0, 0⟩
  forceKalman := ⟨1/100, 1/10, 1/2, 0, 0⟩
  distanceHistory := List.replicate HISTORY_SIZE 0
  forceHistory := List.replicate HISTORY_SIZE 0
  distanceHistoryIndex := 0
  forceHistoryIndex := 0
  bufferIsFull := false
  stable_distance_mm := -1
  stable_force_N := 0
  decoder := initDecoder
  output := []
  forceWrites := 0
  distanceWrites := 0

/-- Run the firmware loop from power-up over a finite input trace. -/
def runLoop (trace : List LoopInput) : SysState :=
  trace.foldl loopStep initState

/-- A quiet loop iteration: no serial byte, raw force and pressure samples 0,
no send tick. -/
def quietInput : LoopInput := ⟨none, 0, false, 0⟩

/-- A loop iteration identical to `quietInput` except that the send interval
has elapsed. -/
def tickInput : LoopInput := ⟨none, 0, true, 0⟩

/-- Input trace for the scheduler-threshold counterexample: 20 quiet
iterations (20 force-history writes, the write index wraps back to 0), then
one iteration whose send tick occurs. -/
def bufferingTrace : List LoopInput :=
  List.replicate 20 quietInput ++ [tickInput]

/-- Input trace for the both-windows counterexample: 18 quiet iterations,
then two ticked iterations.  The 19th iteration's tick latches
`bufferIsFull` (force index = 19); the 20th iteration's tick emits a line
while the distance window has never been written. -/
def bothWindowsTrace : List LoopInput :=
  List.replicate 18 quietInput ++ [tickInput, tickInput]

/-- The spec's 9-byte frame-decoder test vector. -/
def specVector : List Byte :=
  [0xAC, 0xCA, 0x00, 0x00, 0x27, 0x10, 0x01, 0xDC, 0xCD]

/-- The corrected 10-byte frame vector: the same sync bytes and trailer, with
one `payload[0]` byte preceding the four big-endian distance bytes. -/
def fullFrameVector : List Byte :=
  [0xAC, 0xCA, 0x00, 0x00, 0x00, 0x27, 0x10, 0x01, 0xDC, 0xCD]

/-- Inductive invariant of the firmware state, established at `initState` and
preserved by `loopStep`: buffer lengths are fixed, each history index equals
its ghost write count modulo 20, the decoder index is in range while reading
a payload, `bufferIsFull` is only latched once some window has observed at
least 19 writes, output only exists once `bufferIsFull`, and while the
distance channel has never been written its state is pristine and every
emitted line carries the −1 sentinel in the distance field. -/
def SysInv (s : SysState) : Prop :=
  s.forceHistory.length = HISTORY_SIZE ∧
  s.distanceHistory.length = HISTORY_SIZE ∧
  s.forceHistoryIndex = s.forceWrites % HISTORY_SIZE ∧
  s.distanceHistoryIndex = s.distanceWrites % HISTORY_SIZE ∧
  s.decoder.payloadBuffer.length = 8 ∧
  (s.decoder.state = DecoderState.READING_PAYLOAD → s.decoder.bufferIndex < 8) ∧
  (s.bufferIsFull = true → 19 ≤ s.forceWrites ∨ 19 ≤ s.distanceWrites) ∧
  (s.output ≠ [] → s.bufferIsFull = true) ∧
  (s.distanceWrites = 0 →
    s.stable_distance_mm = -1 ∧
    s.distanceHistory = List.replicate HISTORY_SIZE 0 ∧
    s.distanceHistoryIndex = 0 ∧
    ∀ l ∈ s.output, ∃ f p, l = formatLine f (-1) p)

/-! ## Claim theorems and supporting lemmas -/

/-- Claim C5: every `update(z)` call transforms the state `(Q, R, P, K, x)`
by exactly the sequence P ← P + Q; K ← P / (P + R); x ← x + K × (z − x);
P ← (1 − K) × P, returns the updated x, and leaves Q and R unchanged. -/
theorem C5_kalman_update_sequence (f : SimpleKalmanFilter) (z : ℚ) :
    (f.update z).1.Q = f.Q ∧ (f.update z).1.R = f.R ∧
    (f.update z).1.K = (f.P + f.Q) / ((f.P + f.Q) + f.R) ∧
    (f.update z).1.x =
      f.x + ((f.P + f.Q) / ((f.P + f.Q) + f.R)) * (z - f.x) ∧
    (f.update z).1.P =
      (1 - (f.P + f.Q) / ((f.P + f.Q) + f.R)) * (f.P + f.Q) ∧
    (f.update z).2 = (f.update z).1.x :=
  ⟨rfl, rfl, rfl, rfl, rfl, rfl⟩

/-- Claim C9: for a filter with R > 0, Q ≥ 0 and P ≥ 0, an `update` call
keeps P ≥ 0 and establishes 0 ≤ K ≤ 1 for the freshly computed gain. -/
theorem C9_kalman_gain_bounds (f : SimpleKalmanFilter) (z : ℚ)
    (hR : 0 < f.R) (hQ : 0 ≤ f.Q) (hP : 0 ≤ f.P) :
    0 ≤ (f.update z).1.P ∧ 0 ≤ (f.update z).1.K ∧ (f.update z).1.K ≤ 1 := by
  have hp1 : 0 ≤ f.P + f.Q := add_nonneg hP hQ
  have hden : 0 < f.P + f.Q + f.R := by linarith
  have hK0 : 0 ≤ (f.P + f.Q) / (f.P + f.Q + f.R) := div_nonneg hp1 hden.le
  have hK1 : (f.P + f.Q) / (f.P + f.Q + f.R) ≤ 1 := by
    rw [div_le_one hden]; linarith
  refine ⟨?_, hK0, hK1⟩
  show 0 ≤ (1 - (f.P + f.Q) / ((f.P + f.Q) + f.R)) * (f.P + f.Q)
  exact mul_nonneg (by linarith) hp1

/-- Witness for C9 at the constructor arguments used in the firmware
(`SimpleKalmanFilter(0.01, 0.1, 0.5)`) and measurement 3. -/
theorem C9_kalman_gain_bounds_witness :
    0 ≤ ((⟨1/100, 1/10, 1/2, 0, 0⟩ : SimpleKalmanFilter).update 3).1.P ∧
    0 ≤ ((⟨1/100, 1/10, 1/2, 0, 0⟩ : SimpleKalmanFilter).update 3).1.K ∧
    ((⟨1/100, 1/10, 1/2, 0, 0⟩ : SimpleKalmanFilter).update 3).1.K ≤ 1 :=
  C9_kalman_gain_bounds ⟨1/100, 1/10, 1/2, 0, 0⟩ 3 (by norm_num) (by norm_num)
    (by norm_num)

/-- Claim C1: when the decoder is reading a payload and receives the 8th
payload byte, it returns to `WAITING_FOR_AC`, and it delivers a measurement
iff `payload[5] ≠ 0x00 ∧ payload[6] = 0xDC ∧ payload[7] = 0xCD`; the
delivered measurement is the 32-bit big-endian integer assembled from
`payload[1..4]` (read as the signed 32-bit Arduino `long` the code builds)
divided by 100. -/
theorem C1_frame_completion (d : Decoder) (b : Byte)
    (hs : d.state = DecoderState.READING_PAYLOAD) (hi : d.bufferIndex = 7) :
    (d.feed b).1.state = DecoderState.WAITING_FOR_AC ∧
    ((d.feed b).2.isSome ↔
      ((d.payloadBuffer.set 7 b).getD 5 0 ≠ 0 ∧
        (d.payloadBuffer.set 7 b).getD 6 0 = 0xDC ∧
        (d.payloadBuffer.set 7 b).getD 7 0 = 0xCD)) ∧
    ∀ m, (d.feed b).2 = some m →
      m = (toSigned32 (bigEndianPayload (d.payloadBuffer.set 7 b)) : ℚ) / 100 := by
  obtain ⟨st, buf, idx⟩ := d
  dsimp only at hs hi
  subst hs; subst hi
  refine ⟨rfl, ?_, ?_⟩
  · show (if (buf.set 7 b).getD 5 0 ≠ 0 ∧ (buf.set 7 b).getD 6 0 = 0xDC ∧
        (buf.set 7 b).getD 7 0 = 0xCD then
          some ((toSigned32 (bigEndianPayload (buf.set 7 b)) : ℚ) / 100)
        else none).isSome ↔ _
    split_ifs with hv
    · exact iff_of_true rfl hv
    · exact iff_of_false (by simp) hv
  · intro m
    show (if (buf.set 7 b).getD 5 0 ≠ 0 ∧ (buf.set 7 b).getD 6 0 = 0xDC ∧
        (buf.set 7 b).getD 7 0 = 0xCD then
          some ((toSigned32 (bigEndianPayload (buf.set 7 b)) : ℚ) / 100)
        else none) = some m → _
    split_ifs with hv
    · intro hm
      injection hm with h
      exact h.symm
    · intro hm
      cases hm

/-- Witness for C1: completing a full valid frame whose payload is
`[0x00, 0x00, 0x00, 0x27, 0x10, 0x01, 0xDC, 0xCD]`. -/
theorem C1_frame_completion_witness :
    ((⟨DecoderState.READING_PAYLOAD, [0, 0, 0, 0x27, 0x10, 0x01, 0xDC, 0], 7⟩ :
        Decoder).feed 0xCD).1.state = DecoderState.WAITING_FOR_AC ∧
    ((⟨DecoderState.READING_PAYLOAD, [0, 0, 0, 0x27, 0x10, 0x01, 0xDC, 0], 7⟩ :
        Decoder).feed 0xCD).2.isSome := by
  have h := C1_frame_completion
    ⟨DecoderState.READING_PAYLOAD, [0, 0, 0, 0x27, 0x10, 0x01, 0xDC, 0], 7⟩
    0xCD rfl rfl
  exact ⟨h.1, h.2.1.mpr (by decide)⟩

/-- Counterexample to claim C3: the spec's 9-byte vector
`[0xAC, 0xCA, 0x00, 0x00, 0x27, 0x10, 0x01, 0xDC, 0xCD]` delivers nothing:
after the two sync bytes only 7 payload bytes remain, so the decoder is still
mid-payload (index 7 of 8) and no measurement reaches the Distance Channel. -/
theorem C3_counterexample :
    (initDecoder.feedAll specVector).2 = [] ∧
    (initDecoder.feedAll specVector).1.state = DecoderState.READING_PAYLOAD ∧
    (initDecoder.feedAll specVector).1.bufferIndex = 7 := by decide

/-- Claim C3 as amended: with one `payload[0]` byte inserted after the sync
bytes — `[0xAC, 0xCA, 0x00, 0x00, 0x00, 0x27, 0x10, 0x01, 0xDC, 0xCD]` — the
decoder delivers exactly the measurement 100 (raw 0x00002710 = 10000 divided
by 100). -/
theorem C3_amended_delivery :
    (initDecoder.feedAll fullFrameVector).2 = [100] := by
  have h : (initDecoder.feedAll fullFrameVector).2 =
      [(toSigned32 (bigEndianPayload
        [0x00, 0x00, 0x00, 0x27, 0x10, 0x01, 0xDC, 0xCD]) : ℚ) / 100] := rfl
  rw [h, show toSigned32 (bigEndianPayload
      [0x00, 0x00, 0x00, 0x27, 0x10, 0x01, 0xDC, 0xCD]) = 10000 by decide]
  norm_num

/-- Counterexample to claim C2: run 20 quiet iterations (the force window
observes 20 writes and its index wraps back to 0), then an iteration whose
scheduler tick fires.  The scheduler is in BUFFERING at that tick and the
force window has observed 21 ≥ 19 writes, yet it does not transition to
STREAMING, because the code tests the wrapped write index
(`forceHistoryIndex >= HISTORY_SIZE - 1`), not the number of writes. -/
theorem C2_counterexample :
    (runLoop bufferingTrace).forceWrites = 21 ∧
    (runLoop bufferingTrace).bufferIsFull = false ∧
    (runLoop bufferingTrace).output = [] := by decide

/-- Counterexample to claim C6: 18 quiet iterations, then two ticked ones.
The 19th iteration's tick latches `bufferIsFull` off the force index alone
and the 20th iteration's tick emits a line, although the distance window has
never been written (it is still all zeros and the distance channel still
holds its −1 sentinel). -/
theorem C6_counterexample :
    (runLoop bothWindowsTrace).output.length = 1 ∧
    (runLoop bothWindowsTrace).distanceWrites = 0 ∧
    (runLoop bothWindowsTrace).distanceHistory = List.replicate HISTORY_SIZE 0 ∧
    (runLoop bothWindowsTrace).bufferIsFull = true := by decide

/-- Feeding a byte never changes the length of the payload buffer. -/
lemma feed_buffer_length (d : Decoder) (b : Byte) :
    ((d.feed b).1).payloadBuffer.length = d.payloadBuffer.length := by
  obtain ⟨st, buf, idx⟩ := d
  cases st
  case WAITING_FOR_AC =>
    by_cases hb : b = (0xAC : Byte) <;> simp [Decoder.feed, hb]
  case WAITING_FOR_CA => rfl
  case READING_PAYLOAD =>
    by_cases hb : 8 ≤ idx + 1 <;> simp [Decoder.feed, hb, List.length_set]

/-- Feeding a byte preserves the payload-index range invariant: whenever the
decoder is in `READING_PAYLOAD`, its write index is below 8. -/
lemma feed_index_lt (d : Decoder) (b : Byte)
    (h : d.state = DecoderState.READING_PAYLOAD → d.bufferIndex < 8) :
    (d.feed b).1.state = DecoderState.READING_PAYLOAD →
      (d.feed b).1.bufferIndex < 8 := by
  obtain ⟨st, buf, idx⟩ := d
  cases st
  case WAITING_FOR_AC =>
    by_cases hb : b = (0xAC : Byte) <;> simp [Decoder.feed, hb]
  case WAITING_FOR_CA =>
    by_cases hb : b = (0xCA : Byte) <;> intro _ <;> simp [Decoder.feed, hb]
  case READING_PAYLOAD =>
    by_cases hb : 8 ≤ idx + 1
    · simp [Decoder.feed, hb]
    · intro _
      simp only [Decoder.feed, if_neg hb]
      omega

/-- A decoder only ever enters `READING_PAYLOAD` with its write index reset
to 0 (the reset in the `WAITING_FOR_CA` arm). -/
lemma feed_enter_payload (d : Decoder) (b : Byte)
    (hne : d.state ≠ DecoderState.READING_PAYLOAD)
    (h : (d.feed b).1.state = DecoderState.READING_PAYLOAD) :
    (d.feed b).1.bufferIndex = 0 := by
  obtain ⟨st, buf, idx⟩ := d
  cases st
  case WAITING_FOR_AC =>
    by_cases hb : b = (0xAC : Byte) <;> simp [Decoder.feed, hb] at h
  case WAITING_FOR_CA => rfl
  case READING_PAYLOAD => exact absurd rfl hne

/-- The force-sensor step preserves the system invariant. -/
lemma sysInv_processForce {s : SysState} (v : ℚ) (h : SysInv s) :
    SysInv (processForceSensor s v) := by
  obtain ⟨h1, h2, h3, h4, h5, h6, h7, h8, h9⟩ := h
  refine ⟨?_, h2, ?_, h4, h5, h6, ?_, h8, h9⟩
  · show (s.forceHistory.set s.forceHistoryIndex _).length = HISTORY_SIZE
    rw [List.length_set]; exact h1
  · show (s.forceHistoryIndex + 1) % HISTORY_SIZE =
      (s.forceWrites + 1) % HISTORY_SIZE
    rw [h3, Nat.mod_add_mod]
  · intro hf
    rcases h7 hf with hw | hw
    · exact Or.inl (hw.trans (Nat.le_succ _))
    · exact Or.inr hw

/-- Reduction of `processDistanceSensor` on a byte the decoder absorbs
without delivering a measurement: only the decoder state advances. -/
lemma processDistance_eq_none {s : SysState} {b : Byte}
    (h : (s.decoder.feed b).2 = none) :
    processDistanceSensor s (some b) =
      { s with decoder := (s.decoder.feed b).1 } := by
  simp only [processDistanceSensor]
  rw [h]

/-- Reduction of `processDistanceSensor` on a byte that completes a valid
frame delivering measurement `m`. -/
lemma processDistance_eq_some {s : SysState} {b : Byte} {m : ℚ}
    (h : (s.decoder.feed b).2 = some m) :
    processDistanceSensor s (some b) =
      { s with
          decoder := (s.decoder.feed b).1
          distanceKalman := (s.distanceKalman.update m).1
          distanceHistory := (windowPush s.distanceHistory
            s.distanceHistoryIndex (s.distanceKalman.update m).2).1
          stable_distance_mm := (windowPush s.distanceHistory
            s.distanceHistoryIndex (s.distanceKalman.update m).2).2.1
          distanceHistoryIndex := (windowPush s.distanceHistory
            s.distanceHistoryIndex (s.distanceKalman.update m).2).2.2
          distanceWrites := s.distanceWrites + 1 } := by
  simp only [processDistanceSensor]
  rw [h]

/-- The distance-sensor step preserves the system invariant. -/
lemma sysInv_processDistance {s : SysState} (ob : Option Byte) (h : SysInv s) :
    SysInv (processDistanceSensor s ob) := by
  obtain ⟨h1, h2, h3, h4, h5, h6, h7, h8, h9⟩ := h
  cases ob with
  | none => exact ⟨h1, h2, h3, h4, h5, h6, h7, h8, h9⟩
  | some b =>
    have h5' : ((s.decoder.feed b).1).payloadBuffer.length = 8 := by
      rw [feed_buffer_length]; exact h5
    have h6' := feed_index_lt s.decoder b h6
    cases hfd : (s.decoder.feed b).2 with
    | none =>
      rw [processDistance_eq_none hfd]
      exact ⟨h1, h2, h3, h4, h5', h6', h7, h8, h9⟩
    | some m =>
      rw [processDistance_eq_some hfd]
      refine ⟨h1, ?_, h3, ?_, h5', h6', ?_, h8, ?_⟩
      · show (s.distanceHistory.set s.distanceHistoryIndex _).length =
          HISTORY_SIZE
        rw [List.length_set]; exact h2
      · show (s.distanceHistoryIndex + 1) % HISTORY_SIZE =
          (s.distanceWrites + 1) % HISTORY_SIZE
        rw [h4, Nat.mod_add_mod]
      · intro hf
        rcases h7 hf with hw | hw
        · exact Or.inl hw
        · exact Or.inr (hw.trans (Nat.le_succ _))
      · intro h0
        exact absurd h0 (Nat.succ_ne_zero _)

/-- The output routine preserves the system invariant. -/
lemma sysInv_sendAllData {s : SysState} (p : ℚ) (h : SysInv s) :
    SysInv (sendAllData s p) := by
  obtain ⟨h1, h2, h3, h4, h5, h6, h7, h8, h9⟩ := h
  unfold sendAllData
  split_ifs with hfull hthr
  · -- BUFFERING, threshold reached: latch `bufferIsFull`, no output
    refine ⟨h1, h2, h3, h4, h5, h6, ?_, fun _ => rfl, h9⟩
    intro _
    rcases hthr with hd | hf
    · right
      have : 19 ≤ s.distanceWrites % HISTORY_SIZE := h4 ▸ hd
      exact this.trans (Nat.mod_le _ _)
    · left
      have : 19 ≤ s.forceWrites % HISTORY_SIZE := h3 ▸ hf
      exact this.trans (Nat.mod_le _ _)
  · -- BUFFERING, threshold not reached: state unchanged
    exact ⟨h1, h2, h3, h4, h5, h6, h7, h8, h9⟩
  · -- STREAMING: emit one line
    have hst : s.bufferIsFull = true := by
      revert hfull; cases s.bufferIsFull <;> simp
    refine ⟨h1, h2, h3, h4, h5, h6, fun _ => h7 hst, fun _ => hst, ?_⟩
    intro h0
    obtain ⟨hsd, hh, hi2, hout⟩ := h9 h0
    refine ⟨hsd, hh, hi2, ?_⟩
    intro l hl
    rw [List.mem_append] at hl
    rcases hl with hl | hl
    · exact hout l hl
    · rw [List.mem_singleton] at hl
      subst hl
      exact ⟨s.stable_force_N, processPressureSensor p, by rw [hsd]⟩

/-- A whole loop iteration preserves the system invariant. -/
lemma sysInv_loopStep {s : SysState} (inp : LoopInput) (h : SysInv s) :
    SysInv (loopStep s inp) := by
  unfold loopStep
  split_ifs
  · exact sysInv_sendAllData _ (sysInv_processForce _ (sysInv_processDistance _ h))
  · exact sysInv_processForce _ (sysInv_processDistance _ h)

/-- The system invariant holds at power-up. -/
lemma sysInv_init : SysInv initState := by
  refine ⟨rfl, rfl, rfl, rfl, rfl, ?_, ?_, ?_, ?_⟩
  · intro hst; exact absurd hst (by decide)
  · intro hf; exact absurd hf (by decide)
  · intro ho; exact absurd rfl ho
  · intro _
    refine ⟨rfl, rfl, rfl, ?_⟩
    intro l hl
    cases hl

/-- The system invariant holds after any finite run of the firmware loop. -/
lemma sysInv_runLoop (trace : List LoopInput) : SysInv (runLoop trace) := by
  have key : ∀ (tr : List LoopInput) (s : SysState), SysInv s →
      SysInv (tr.foldl loopStep s) := by
    intro tr
    induction tr with
    | nil => exact fun s hs => hs
    | cons a tl ih => exact fun s hs => ih _ (sysInv_loopStep a hs)
  exact key trace initState sysInv_init

/-- The force-sensor step touches only the force channel: scheduler flag,
output, and the whole distance channel are untouched. -/
lemma processForce_fields (s : SysState) (v : ℚ) :
    (processForceSensor s v).bufferIsFull = s.bufferIsFull ∧
    (processForceSensor s v).output = s.output ∧
    (processForceSensor s v).stable_distance_mm = s.stable_distance_mm ∧
    (processForceSensor s v).distanceKalman = s.distanceKalman ∧
    (processForceSensor s v).distanceHistory = s.distanceHistory ∧
    (processForceSensor s v).distanceHistoryIndex = s.distanceHistoryIndex :=
  ⟨rfl, rfl, rfl, rfl, rfl, rfl⟩

/-- The distance-sensor step touches only the distance channel and the
decoder: scheduler flag, output, and the whole force channel are
untouched. -/
lemma processDistance_fields (s : SysState) (ob : Option Byte) :
    (processDistanceSensor s ob).bufferIsFull = s.bufferIsFull ∧
    (processDistanceSensor s ob).output = s.output ∧
    (processDistanceSensor s ob).forceKalman = s.forceKalman ∧
    (processDistanceSensor s ob).forceHistory = s.forceHistory ∧
    (processDistanceSensor s ob).forceHistoryIndex = s.forceHistoryIndex ∧
    (processDistanceSensor s ob).stable_force_N = s.stable_force_N := by
  cases ob with
  | none => exact ⟨rfl, rfl, rfl, rfl, rfl, rfl⟩
  | some b =>
    cases hfd : (s.decoder.feed b).2 with
    | none =>
      rw [processDistance_eq_none hfd]
      exact ⟨rfl, rfl, rfl, rfl, rfl, rfl⟩
    | some m =>
      rw [processDistance_eq_some hfd]
      exact ⟨rfl, rfl, rfl, rfl, rfl, rfl⟩

/-- Reduction of `sendAllData` while `bufferIsFull` is not yet latched. -/
lemma sendAllData_buffering {s : SysState} (p : ℚ)
    (h : s.bufferIsFull = false) :
    sendAllData s p =
      if HISTORY_SIZE - 1 ≤ s.distanceHistoryIndex ∨
          HISTORY_SIZE - 1 ≤ s.forceHistoryIndex then
        { s with bufferIsFull := true }
      else s := by
  unfold sendAllData
  rw [h]
  simp

/-- Reduction of `sendAllData` once `bufferIsFull` is latched: sample the
pressure fresh and append exactly one formatted line. -/
lemma sendAllData_streaming {s : SysState} (p : ℚ)
    (h : s.bufferIsFull = true) :
    sendAllData s p =
      { s with output := s.output ++
          [formatLine s.stable_force_N s.stable_distance_mm
            (processPressureSensor p)] } := by
  unfold sendAllData
  rw [h]
  simp

/-- Reduction of `loopStep` on an iteration whose send tick fires. -/
lemma loopStep_tick {s : SysState} {inp : LoopInput} (ht : inp.tick = true) :
    loopStep s inp =
      sendAllData
        (processForceSensor (processDistanceSensor s inp.serialByte)
          inp.forceRaw) inp.pressureRaw := by
  simp only [loopStep, ht, if_true]

/-- Reduction of `loopStep` on an iteration without a send tick. -/
lemma loopStep_no_tick {s : SysState} {inp : LoopInput}
    (ht : inp.tick = false) :
    loopStep s inp =
      processForceSensor (processDistanceSensor s inp.serialByte)
        inp.forceRaw := by
  simp only [loopStep, ht]
  simp

/-- The sensor-processing half of an iteration never changes the scheduler
flag or the output. -/
lemma procChain_fields (s : SysState) (ob : Option Byte) (v : ℚ) :
    (processForceSensor (processDistanceSensor s ob) v).bufferIsFull =
      s.bufferIsFull ∧
    (processForceSensor (processDistanceSensor s ob) v).output = s.output := by
  refine ⟨?_, ?_⟩
  · rw [(processForce_fields _ _).1, (processDistance_fields _ _).1]
  · rw [(processForce_fields _ _).2.1, (processDistance_fields _ _).2.1]

/-- Claim C7: once `bufferIsFull` (the STREAMING state) is latched, no step
ever clears it, and every ticked iteration emits exactly the one line built
from the just-updated stabilized force and distance (2 decimal digits each)
and a freshly sampled, rescaled pressure (3 decimal digits), comma-separated
and newline-terminated (see `formatLine`/`formatFixed`). -/
theorem C7_streaming_terminal :
    (∀ (s : SysState) (inp : LoopInput), s.bufferIsFull = true →
        (loopStep s inp).bufferIsFull = true) ∧
    (∀ (s : SysState) (inp : LoopInput), s.bufferIsFull = true →
        inp.tick = true →
        (loopStep s inp).output = s.output ++
          [formatLine
            (processForceSensor (processDistanceSensor s inp.serialByte)
              inp.forceRaw).stable_force_N
            (processForceSensor (processDistanceSensor s inp.serialByte)
              inp.forceRaw).stable_distance_mm
            (processPressureSensor inp.pressureRaw)]) := by
  constructor
  · intro s inp hf
    have hf2 : (processForceSensor (processDistanceSensor s inp.serialByte)
        inp.forceRaw).bufferIsFull = true := by
      rw [(procChain_fields s inp.serialByte inp.forceRaw).1]; exact hf
    by_cases ht : inp.tick = true
    · rw [loopStep_tick ht, sendAllData_streaming _ hf2]
      exact hf2
    · rw [loopStep_no_tick (by revert ht; cases inp.tick <;> simp)]
      exact hf2
  · intro s inp hf ht
    have hf2 : (processForceSensor (processDistanceSensor s inp.serialByte)
        inp.forceRaw).bufferIsFull = true := by
      rw [(procChain_fields s inp.serialByte inp.forceRaw).1]; exact hf
    rw [loopStep_tick ht, sendAllData_streaming _ hf2]
    dsimp only
    rw [(procChain_fields s inp.serialByte inp.forceRaw).2]

/-- Witness for C7: one ticked step from a streaming state. -/
theorem C7_streaming_terminal_witness :
    (loopStep { initState with bufferIsFull := true } tickInput).bufferIsFull
        = true ∧
    (loopStep { initState with bufferIsFull := true } tickInput).output =
      ({ initState with bufferIsFull := true } : SysState).output ++
        [formatLine
          (processForceSensor (processDistanceSensor
            { initState with bufferIsFull := true } tickInput.serialByte)
            tickInput.forceRaw).stable_force_N
          (processForceSensor (processDistanceSensor
            { initState with bufferIsFull := true } tickInput.serialByte)
            tickInput.forceRaw).stable_distance_mm
          (processPressureSensor tickInput.pressureRaw)] :=
  ⟨C7_streaming_terminal.1 { initState with bufferIsFull := true } tickInput
      rfl,
    C7_streaming_terminal.2 { initState with bufferIsFull := true } tickInput
      rfl rfl⟩

/-- Claim C2 as amended: at a BUFFERING tick the scheduler transitions to
STREAMING (emitting nothing on that tick) exactly when either window's
current write index has reached `HISTORY_SIZE − 1 = 19` — the index equals
the channel's write count modulo 20, so this means "number of writes ≡ 19
(mod 20)", not "at least 19 writes observed"; before either window has
observed 19 writes no line is ever emitted, and once in STREAMING every
ticked iteration emits exactly one line. -/
theorem C2_amended_transition :
    (∀ (s : SysState) (p : ℚ), s.bufferIsFull = false →
        ((sendAllData s p).bufferIsFull = true ↔
          (HISTORY_SIZE - 1 ≤ s.distanceHistoryIndex ∨
            HISTORY_SIZE - 1 ≤ s.forceHistoryIndex)) ∧
        (sendAllData s p).output = s.output) ∧
    (∀ trace : List LoopInput,
        (runLoop trace).forceHistoryIndex =
          (runLoop trace).forceWrites % HISTORY_SIZE ∧
        (runLoop trace).distanceHistoryIndex =
          (runLoop trace).distanceWrites % HISTORY_SIZE) ∧
    (∀ trace : List LoopInput, (runLoop trace).forceWrites < 19 →
        (runLoop trace).distanceWrites < 19 →
        (runLoop trace).output = []) ∧
    (∀ (s : SysState) (inp : LoopInput), s.bufferIsFull = true →
        inp.tick = true →
        (loopStep s inp).output.length = s.output.length + 1) := by
  refine ⟨?_, ?_, ?_, ?_⟩
  · intro s p hf
    rw [sendAllData_buffering p hf]
    split_ifs with ht
    · exact ⟨iff_of_true rfl ht, rfl⟩
    · refine ⟨iff_of_false ?_ ht, rfl⟩
      simp [hf]
  · intro tr
    obtain ⟨_, _, h3, h4, _⟩ := sysInv_runLoop tr
    exact ⟨h3, h4⟩
  · intro tr hfw hdw
    obtain ⟨_, _, _, _, _, _, h7, h8, _⟩ := sysInv_runLoop tr
    by_contra hne
    rcases h7 (h8 hne) with h | h <;> omega
  · intro s inp hf ht
    have hf2 : (processForceSensor (processDistanceSensor s inp.serialByte)
        inp.forceRaw).bufferIsFull = true := by
      rw [(procChain_fields s inp.serialByte inp.forceRaw).1]; exact hf
    rw [loopStep_tick ht, sendAllData_streaming _ hf2]
    dsimp only
    rw [List.length_append, (procChain_fields s inp.serialByte inp.forceRaw).2]
    rfl

/-- Witness for C2's amended statement: the threshold test at the initial
state, the index/write-count relation and the no-early-output property on the
empty trace, and one emitting tick from a streaming state. -/
theorem C2_amended_transition_witness :
    ((sendAllData initState 0).bufferIsFull = true ↔
      (HISTORY_SIZE - 1 ≤ initState.distanceHistoryIndex ∨
        HISTORY_SIZE - 1 ≤ initState.forceHistoryIndex)) ∧
    (runLoop []).forceHistoryIndex = (runLoop []).forceWrites % HISTORY_SIZE ∧
    (runLoop []).output = [] ∧
    (loopStep { initState with bufferIsFull := true } tickInput).output.length
      = ({ initState with bufferIsFull := true } : SysState).output.length + 1 :=
  ⟨(C2_amended_transition.1 initState 0 rfl).1,
    (C2_amended_transition.2.1 []).1,
    C2_amended_transition.2.2.1 [] (by decide) (by decide),
    C2_amended_transition.2.2.2 { initState with bufferIsFull := true }
      tickInput rfl rfl⟩

/-- Claim C6 as amended: output (once any line exists) implies the
`bufferIsFull` latch is set, which in turn requires that at least one of the
two windows — not necessarily both — has observed at least 19 writes; the
accompanying counterexample shows the first line can be emitted while the
distance window has never been written. -/
theorem C6_amended_output_threshold :
    (∀ trace : List LoopInput, (runLoop trace).output ≠ [] →
        (runLoop trace).bufferIsFull = true) ∧
    (∀ trace : List LoopInput, (runLoop trace).output ≠ [] →
        19 ≤ (runLoop trace).forceWrites ∨
          19 ≤ (runLoop trace).distanceWrites) := by
  constructor
  · intro tr h
    obtain ⟨_, _, _, _, _, _, _, h8, _⟩ := sysInv_runLoop tr
    exact h8 h
  · intro tr h
    obtain ⟨_, _, _, _, _, _, h7, h8, _⟩ := sysInv_runLoop tr
    exact h7 (h8 h)

/-- Witness for C6's amended statement on the concrete emitting trace. -/
theorem C6_amended_output_threshold_witness :
    (runLoop bothWindowsTrace).bufferIsFull = true ∧
    (19 ≤ (runLoop bothWindowsTrace).forceWrites ∨
      19 ≤ (runLoop bothWindowsTrace).distanceWrites) :=
  ⟨C6_amended_output_threshold.1 bothWindowsTrace (by decide),
    C6_amended_output_threshold.2 bothWindowsTrace (by decide)⟩

/-- Claim C8: a byte that does not complete a validated frame leaves every
Distance Channel field (filter state, history buffer, write index,
stabilized value) unchanged; `processDistanceSensor` never touches the Force
Channel; and in any run in which the decoder never delivers, the stabilized
distance stays at the −1 sentinel and every emitted line renders it (as
`formatFixed (-1) 2 = "-1.00"`). -/
theorem C8_distance_channel_isolation :
    (∀ (s : SysState) (b : Byte), (s.decoder.feed b).2 = none →
        (processDistanceSensor s (some b)).distanceKalman =
          s.distanceKalman ∧
        (processDistanceSensor s (some b)).distanceHistory =
          s.distanceHistory ∧
        (processDistanceSensor s (some b)).distanceHistoryIndex =
          s.distanceHistoryIndex ∧
        (processDistanceSensor s (some b)).stable_distance_mm =
          s.stable_distance_mm) ∧
    (∀ (s : SysState) (ob : Option Byte),
        (processDistanceSensor s ob).forceKalman = s.forceKalman ∧
        (processDistanceSensor s ob).forceHistory = s.forceHistory ∧
        (processDistanceSensor s ob).forceHistoryIndex =
          s.forceHistoryIndex ∧
        (processDistanceSensor s ob).stable_force_N = s.stable_force_N) ∧
    (∀ trace : List LoopInput, (runLoop trace).distanceWrites = 0 →
        (runLoop trace).stable_distance_mm = -1 ∧
        ∀ l ∈ (runLoop trace).output, ∃ f p, l = formatLine f (-1) p) ∧
    formatFixed (-1) 2 = "-1.00" := by
  refine ⟨?_, ?_, ?_, ?_⟩
  · intro s b hn
    rw [processDistance_eq_none hn]
    exact ⟨rfl, rfl, rfl, rfl⟩
  · intro s ob
    obtain ⟨_, _, h3, h4, h5, h6⟩ := processDistance_fields s ob
    exact ⟨h3, h4, h5, h6⟩
  · intro tr h0
    obtain ⟨_, _, _, _, _, _, _, _, h9⟩ := sysInv_runLoop tr
    obtain ⟨ha, _, _, hd⟩ := h9 h0
    exact ⟨ha, hd⟩
  · unfold formatFixed
    rw [show (⌊|(-1 : ℚ)| * (10 : ℚ) ^ 2 + 1 / 2⌋ : ℤ) = 100 by norm_num]
    rw [if_pos (by norm_num : (-1 : ℚ) < 0)]
    decide

/-- Witness for C8: a discarded byte at power-up, force-field preservation,
and the sentinel on the empty run. -/
theorem C8_distance_channel_isolation_witness :
    (processDistanceSensor initState (some 0)).stable_distance_mm =
      initState.stable_distance_mm ∧
    (processDistanceSensor initState (some 0)).forceHistory =
      initState.forceHistory ∧
    (runLoop []).stable_distance_mm = -1 :=
  ⟨(C8_distance_channel_isolation.1 initState 0 rfl).2.2.2,
    (C8_distance_channel_isolation.2.1 initState (some 0)).2.1,
    (C8_distance_channel_isolation.2.2.1 [] rfl).1⟩

/-- Claim C10: in every reachable state the decoder's write index is below 8
whenever it is in `READING_PAYLOAD` (so the store into the 8-byte payload
buffer is in bounds), the payload buffer keeps length 8, both history indices
stay below 20 and both history arrays keep length 20; moreover every
transition into `READING_PAYLOAD` resets the write index to 0. -/
theorem C10_writes_in_bounds :
    (∀ trace : List LoopInput,
        ((runLoop trace).decoder.state = DecoderState.READING_PAYLOAD →
          (runLoop trace).decoder.bufferIndex < 8) ∧
        (runLoop trace).decoder.payloadBuffer.length = 8 ∧
        (runLoop trace).forceHistoryIndex < HISTORY_SIZE ∧
        (runLoop trace).distanceHistoryIndex < HISTORY_SIZE ∧
        (runLoop trace).forceHistory.length = HISTORY_SIZE ∧
        (runLoop trace).distanceHistory.length = HISTORY_SIZE) ∧
    (∀ (d : Decoder) (b : Byte), d.state ≠ DecoderState.READING_PAYLOAD →
        (d.feed b).1.state = DecoderState.READING_PAYLOAD →
        (d.feed b).1.bufferIndex = 0) := by
  constructor
  · intro tr
    obtain ⟨h1, h2, h3, h4, h5, h6, _, _, _⟩ := sysInv_runLoop tr
    refine ⟨h6, h5, ?_, ?_, h1, h2⟩
    · rw [h3]; exact Nat.mod_lt _ (by decide)
    · rw [h4]; exact Nat.mod_lt _ (by decide)
  · exact feed_enter_payload

/-- Witness for C10: the empty run, and an explicit sync-completing byte that
enters `READING_PAYLOAD` with the index reset from 5 to 0. -/
theorem C10_writes_in_bounds_witness :
    (runLoop []).forceHistoryIndex < HISTORY_SIZE ∧
    ((⟨DecoderState.WAITING_FOR_CA, List.replicate 8 0, 5⟩ : Decoder).feed
        0xCA).1.bufferIndex = 0 :=
  ⟨(C10_writes_in_bounds.1 []).2.2.1,
    C10_writes_in_bounds.2
      ⟨DecoderState.WAITING_FOR_CA, List.replicate 8 0, 5⟩ 0xCA
      (by decide) (by decide)⟩

/-- Setting the element right after a prefix writes into the suffix. -/
lemma set_append_length (l₁ l₂ : List ℚ) (v : ℚ) :
    (l₁ ++ l₂).set l₁.length v = l₁ ++ l₂.set 0 v := by
  induction l₁ with
  | nil => rfl
  | cons a t ih =>
    show a :: ((t ++ l₂).set t.length v) = a :: (t ++ l₂.set 0 v)
    rw [ih]

/-- Pushing values one by one into a window whose prefix is already written
and whose suffix is still the zero fill extends the written prefix. -/
lemma windowPushAll_build (vs : List ℚ) :
    ∀ pre : List ℚ, pre.length + vs.length ≤ HISTORY_SIZE →
      (windowPushAll (pre ++ List.replicate (HISTORY_SIZE - pre.length) 0)
          pre.length vs).1 =
        (pre ++ vs) ++
          List.replicate (HISTORY_SIZE - pre.length - vs.length) 0 := by
  induction vs with
  | nil =>
    intro pre _h
    simp [windowPushAll]
  | cons v vs ih =>
    intro pre h
    simp only [List.length_cons] at h
    simp only [windowPushAll]
    have hset : (windowPush
        (pre ++ List.replicate (HISTORY_SIZE - pre.length) 0) pre.length v).1
        = (pre ++ [v]) ++
            List.replicate (HISTORY_SIZE - (pre.length + 1)) 0 := by
      show (pre ++ List.replicate (HISTORY_SIZE - pre.length) 0).set
          pre.length v = _
      rw [set_append_length]
      rw [show HISTORY_SIZE - pre.length =
        (HISTORY_SIZE - (pre.length + 1)) + 1 by omega]
      rw [show (List.replicate ((HISTORY_SIZE - (pre.length + 1)) + 1)
          (0 : ℚ)).set 0 v =
          v :: List.replicate (HISTORY_SIZE - (pre.length + 1)) 0 from rfl]
      simp
    have hidx : (windowPush
        (pre ++ List.replicate (HISTORY_SIZE - pre.length) 0) pre.length
          v).2.2 = (pre.length + 1) % HISTORY_SIZE := rfl
    rw [hset, hidx]
    by_cases hvs : vs = []
    · subst hvs
      simp only [windowPushAll]
      rw [show ([v] : List ℚ).length = 1 from rfl]
      rw [show HISTORY_SIZE - pre.length - 1
          = HISTORY_SIZE - (pre.length + 1) by omega]
    · have hlen : 0 < vs.length := List.length_pos.mpr hvs
      have hk1 : pre.length + 1 < HISTORY_SIZE := by omega
      rw [Nat.mod_eq_of_lt hk1]
      have key := ih (pre ++ [v]) (by simp; omega)
      rw [show (pre ++ [v]).length = pre.length + 1 by simp] at key
      rw [key]
      rw [show (v :: vs).length = vs.length + 1 from rfl]
      rw [show HISTORY_SIZE - pre.length - (vs.length + 1)
          = HISTORY_SIZE - (pre.length + 1) - vs.length by omega]
      simp

/-- Claim C4: the stabilized reading produced by a push is always the sum of
the whole 20-slot backing buffer divided by 20 (the buffer keeps length 20);
after exactly 20 pushes into a fresh zero-filled window the buffer holds
exactly the 20 pushed values, so the reading is their arithmetic mean; and a
single push of `v` into a fresh window yields `v / 20`. -/
theorem C4_window_mean :
    (∀ (hist : List ℚ) (idx : ℕ) (v : ℚ), hist.length = HISTORY_SIZE →
        (windowPush hist idx v).2.1 =
          (windowPush hist idx v).1.sum / (HISTORY_SIZE : ℚ) ∧
        (windowPush hist idx v).1.length = HISTORY_SIZE) ∧
    (∀ vs : List ℚ, vs.length = HISTORY_SIZE →
        (windowPushAll (List.replicate HISTORY_SIZE 0) 0 vs).1 = vs ∧
        (windowPushAll (List.replicate HISTORY_SIZE 0) 0 vs).1.sum /
            (HISTORY_SIZE : ℚ) = vs.sum / (HISTORY_SIZE : ℚ)) ∧
    (∀ v : ℚ,
        (windowPush (List.replicate HISTORY_SIZE 0) 0 v).2.1 =
          v / (HISTORY_SIZE : ℚ)) := by
  refine ⟨?_, ?_, ?_⟩
  · intro hist idx v hl
    refine ⟨rfl, ?_⟩
    show (hist.set idx v).length = HISTORY_SIZE
    rw [List.length_set]
    exact hl
  · intro vs hv
    have key := windowPushAll_build vs [] (by simp [hv])
    simp only [List.length_nil, Nat.sub_zero, List.nil_append, hv] at key
    rw [Nat.sub_self] at key
    simp only [List.replicate_zero, List.append_nil] at key
    exact ⟨key, by rw [key]⟩
  · intro v
    show ((List.replicate HISTORY_SIZE (0 : ℚ)).set 0 v).sum /
        (HISTORY_SIZE : ℚ) = v / (HISTORY_SIZE : ℚ)
    rw [show (List.replicate HISTORY_SIZE (0 : ℚ)).set 0 v =
      v :: List.replicate 19 0 from rfl]
    simp

/-- Witness for C4: a push into a fresh window and a full fill with the
constant value 7. -/
theorem C4_window_mean_witness :
    (windowPush (List.replicate HISTORY_SIZE 0) 3 5).2.1 =
      (windowPush (List.replicate HISTORY_SIZE 0) 3 5).1.sum /
        (HISTORY_SIZE : ℚ) ∧
    (windowPushAll (List.replicate HISTORY_SIZE 0) 0
        (List.replicate HISTORY_SIZE 7)).1 = List.replicate HISTORY_SIZE 7 :=
  ⟨(C4_window_mean.1 (List.replicate HISTORY_SIZE 0) 3 5 rfl).1,
    (C4_window_mean.2.1 (List.replicate HISTORY_SIZE 7) rfl).1⟩
